import Mathlib

/-!
Shallow embedding of the MCP web-interface-guidelines server
(`src/app/mcp/route.ts`).  The five tool handlers are modelled as pure
Lean functions over the hardcoded guideline corpus.  JavaScript strings
are modelled as Lean `String` (a wrapper around `List Char`);
`String.prototype.toLowerCase` is modelled by mapping `Char.toLower`
(the corpus and the markers are ASCII, where the two agree),
`String.prototype.includes` by a contiguous-sublist scan, and
`String.prototype.trim` by dropping whitespace at both ends.
-/

set_option maxRecDepth 100000

namespace GWI

/-- The hardcoded guideline corpus from `route.ts` lines 17-90: a mapping
from category name to its ordered list of guideline statements, in the
object's insertion order (the order `Object.entries` iterates). -/
def guidelines : List (String × List String) := [
  ("interactivity", [
    "Clicking the input label should focus the input field",
    "Inputs should be wrapped with a <form> to submit by pressing Enter",
    "Inputs should have an appropriate type like password, email, etc",
    "Inputs should disable spellcheck and autocomplete attributes most of the time",
    "Inputs should leverage HTML form validation by using the required attribute when appropriate",
    "Input prefix and suffix decorations should be absolutely positioned on top of the text input with padding, not next to it, and trigger focus on the input",
    "Toggles should immediately take effect, not require confirmation",
    "Buttons should be disabled after submission to avoid duplicate network requests",
    "Interactive elements should disable user-select for inner content",
    "Decorative elements (glows, gradients) should disable pointer-events to not hijack events",
    "Interactive elements in a vertical or horizontal list should have no dead areas between each element, instead, increase their padding"]),
  ("typography", [
    "Fonts should have -webkit-font-smoothing: antialiased applied for better legibility",
    "Fonts should have text-rendering: optimizeLegibility applied for better legibility",
    "Fonts should be subset based on the content, alphabet or relevant language(s)",
    "Font weight should not change on hover or selected state to prevent layout shift",
    "Font weights below 400 should not be used",
    "Medium sized headings generally look best with a font weight between 500-600",
    "Adjust values fluidly by using CSS clamp(), e.g. clamp(48px, 5vw, 72px) for the font-size of a heading",
    "Where available, tabular figures should be applied with font-variant-numeric: tabular-nums, particularly in tables or when layout shifts are undesirable, like in timers",
    "Prevent text resizing unexpectedly in landscape mode on iOS with -webkit-text-size-adjust: 100%"]),
  ("motion", [
    "Switching themes should not trigger transitions and animations on elements",
    "Animation duration should not be more than 200ms for interactions to feel immediate",
    "Animation values should be proportional to the trigger size: Don't animate dialog scale in from 0 → 1, fade opacity and scale from ~0.8",
    "Don't scale buttons on press from 1 → 0.8, but ~0.96, ~0.9, or so",
    "Actions that are frequent and low in novelty should avoid extraneous animations: Opening a right click menu, Deleting or adding items from a list, Hovering trivial buttons",
    "Looping animations should pause when not visible on the screen to offload CPU and GPU usage",
    "Use scroll-behavior: smooth for navigating to in-page anchors, with an appropriate offset"]),
  ("touch", [
    "Hover states should not be visible on touch press, use @media (hover: hover)",
    "Font size for inputs should not be smaller than 16px to prevent iOS zooming on focus",
    "Inputs should not auto focus on touch devices as it will open the keyboard and cover the screen",
    "Apply muted and playsinline to <video /> tags to auto play on iOS",
    "Disable touch-action for custom components that implement pan and zoom gestures to prevent interference from native behavior like zooming and scrolling",
    "Disable the default iOS tap highlight with -webkit-tap-highlight-color: rgba(0,0,0,0), but always replace it with an appropriate alternative"]),
  ("accessibility", [
    "Disabled buttons should not have tooltips, they are not accessible",
    "Box shadow should be used for focus rings, not outline which won't respect radius",
    "Focusable elements in a sequential list should be navigable with ↑ ↓",
    "Focusable elements in a sequential list should be deletable with ⌘ Backspace",
    "To open immediately on press, dropdown menus should trigger on mousedown, not click",
    "Use a svg favicon with a style tag that adheres to the system theme based on prefers-color-scheme",
    "Icon only interactive elements should define an explicit aria-label",
    "Tooltips triggered by hover should not contain interactive content",
    "Images should always be rendered with <img> for screen readers and ease of copying from the right click menu",
    "Illustrations built with HTML should have an explicit aria-label instead of announcing the raw DOM tree to people using screen readers",
    "Gradient text should unset the gradient on ::selection state",
    "When using nested menus, use a prediction cone to prevent the pointer from accidentally closing the menu when moving across other elements"]),
  ("optimizations", [
    "Large blur() values for filter and backdrop-filter may be slow",
    "Scaling and blurring filled rectangles will cause banding, use radial gradients instead",
    "Sparingly enable GPU rendering with transform: translateZ(0) for unperformant animations",
    "Toggle will-change on unperformant scroll animations for the duration of the animation",
    "Auto-playing too many videos on iOS will choke the device, pause or even unmount off-screen videos",
    "Bypass React's render lifecycle with refs for real-time values that can commit to the DOM directly",
    "Detect and adapt to the hardware and network capabilities of the user's device"]),
  ("design", [
    "Optimistically update data locally and roll back on server error with feedback",
    "Authentication redirects should happen on the server before the client loads to avoid janky URL changes",
    "Style the document selection state with ::selection",
    "Display feedback relative to its trigger: Show a temporary inline checkmark on a successful copy, not a notification",
    "Highlight the relevant input(s) on form error(s)",
    "Empty states should prompt to create a new item, with optional templates"])]

/-- The closed set of valid category names (the non-`all` values of the
`z.enum` in `route.ts` lines 98-109 / 195-205), equal to the corpus keys. -/
def categoryNames : List String :=
  ["interactivity", "typography", "motion", "touch", "accessibility",
   "optimizations", "design"]

/-- JS `cat.charAt(0).toUpperCase() + cat.slice(1)` (route.ts line 116 etc.):
upper-case the first character, keep the rest. -/
def capitalize (s : String) : String :=
  match s.data with
  | [] => ""
  | c :: cs => String.mk (c.toUpper :: cs)

/-- One bullet line, JS `` `- ${rule}` ``. -/
def bullet (rule : String) : String := "- " ++ rule

/-- The per-category block built by the `category === "all"` branch of
`get_guidelines` (route.ts lines 113-119): a title-cased heading line
followed by one bullet line per statement, in corpus order. -/
def formatCategory (cat : String) (rules : List String) : String :=
  "## " ++ capitalize cat ++ "\n" ++ String.intercalate "\n" (rules.map bullet)

/-- The `get_guidelines` tool handler (route.ts lines 111-148), after the
`z.enum` validation: the `category = "all"` default is applied by the caller.
Returns the single text block of the response. -/
def getGuidelines (category : String) : String :=
  if category = "all" then
    String.intercalate "\n\n"
      (guidelines.map (fun e => formatCategory e.1 e.2))
  else
    match guidelines.lookup category with
    | none =>
        "Category \"" ++ category ++ "\" not found. Available categories: "
          ++ String.intercalate ", " (guidelines.map (fun e => e.1))
    | some rules =>
        "## " ++ capitalize category ++ " Guidelines\n"
          ++ String.intercalate "\n" (rules.map bullet)

/-- JS `String.prototype.toLowerCase`, on the ASCII fragment used by the
corpus and the markers: lower-case every character. -/
def lowerStr (s : String) : String := String.mk (s.data.map Char.toLower)

/-- Whether `needle` occurs in `hay` as a contiguous sublist: the content of
JS `hay.includes(needle)`. -/
def charsContain : List Char → List Char → Bool
  | [], needle => needle.isEmpty
  | c :: tl, needle => needle.isPrefixOf (c :: tl) || charsContain tl needle

/-- JS `hay.includes(sub)` on strings. -/
def jsIncludes (hay sub : String) : Bool := charsContain hay.data sub.data

/-- The `` `**${category}**: ${rule}` `` tag used by both `search_guidelines`
and `validate_pattern`. -/
def renderTag (cat rule : String) : String := "**" ++ cat ++ "**: " ++ rule

/-- The result-accumulation loop of `search_guidelines` (route.ts lines
158-167): for every category in corpus order, for every rule in order, push
the tagged rule when the lower-cased rule contains the lower-cased query. -/
def searchResults (query : String) : List String :=
  let searchTerm := lowerStr query
  guidelines.foldl
    (fun results e =>
      e.2.foldl
        (fun results rule =>
          if jsIncludes (lowerStr rule) searchTerm then
            results ++ [renderTag e.1 rule]
          else results)
        results)
    []

/-- The `search_guidelines` tool handler (route.ts lines 157-187): the text
block of the response. -/
def searchGuidelines (query : String) : String :=
  let results := searchResults query
  if results.length = 0 then
    "No guidelines found matching \"" ++ query ++ "\""
  else
    "Found " ++ toString results.length ++ " guidelines matching \""
      ++ query ++ "\":\n\n" ++ String.intercalate "\n\n" results

/-- The corpus flattened to (category, statement) pairs, in corpus order. -/
def corpusPairs : List (String × String) :=
  guidelines.flatMap (fun e => e.2.map (fun r => (e.1, r)))

/-- Flattening of any scope to (category, statement) pairs. -/
def pairsOf (scope : List (String × List String)) : List (String × String) :=
  scope.flatMap (fun e => e.2.map (fun r => (e.1, r)))

/-- JS `String.prototype.trim` (the corpus only puts ASCII blanks at the
ends of split fragments): drop whitespace at both ends. -/
def jsTrim (s : String) : String :=
  String.mk (((s.data.dropWhile Char.isWhitespace).reverse.dropWhile
    Char.isWhitespace).reverse)

/-- The three alternatives of the split regex `/avoid|don't|prevent/i` of
`route.ts` line 224, in alternation order, as lower-case character lists. -/
def negMarkers : List (List Char) := [String.data "avoid", String.data "don't", String.data "prevent"]

/-- Case-insensitive prefix test: the lower-case marker `m` matches the
start of `l` when each character of `l` lower-cases to the marker's. -/
def ciPref : List Char → List Char → Bool
  | [], _ => true
  | _ :: _, [] => false
  | a :: as, b :: bs => (a == b.toLower) && ciPref as bs

/-- Try the markers in alternation order at the current position; on a match
return the rest of the input after the matched marker. -/
def tryMarkers (ms : List (List Char)) (l : List Char) : Option (List Char) :=
  match ms with
  | [] => none
  | m :: rest => if ciPref m l then some (l.drop m.length) else tryMarkers rest l

/-- Fuel-indexed scan implementing JS `String.prototype.split` with the
regex `/avoid|don't|prevent/i`: segments of the input between successive
leftmost matches (alternatives tried in order at each position).  The fuel
bounds the recursion; `fuel = input length` never runs out because every
step consumes at least one character. -/
def splitMarkersAux : Nat → List Char → List (List Char)
  | _, [] => [[]]
  | 0, l => [l]
  | fuel + 1, c :: cs =>
    match tryMarkers negMarkers (c :: cs) with
    | some rest => [] :: splitMarkersAux fuel rest
    | none =>
      match splitMarkersAux fuel cs with
      | [] => [[c]]
      | seg :: segs => (c :: seg) :: segs

/-- JS `rule.split(/avoid|don't|prevent/i)` (route.ts line 224). -/
def splitMarkers (s : String) : List String :=
  (splitMarkersAux s.data.length s.data).map String.mk

/-- JS `rule.split(/avoid|don't|prevent/i)[1]?.trim()`: the trimmed second
split segment, when the split produced one. -/
def codeFragTrim (rule : String) : Option String :=
  ((splitMarkers rule).get? 1).map jsTrim

/-- Negative-marker test of `route.ts` lines 219-223: the lower-cased rule
contains `avoid`, `don't` or `prevent` as a substring. -/
def negSub (rule : String) : Bool :=
  let lowerRule := lowerStr rule
  jsIncludes lowerRule "avoid" || jsIncludes lowerRule "don't"
    || jsIncludes lowerRule "prevent"

/-- Positive-marker test of `route.ts` lines 228-232: the lower-cased rule
contains `use`, `apply` or `ensure` as a substring. -/
def posSub (rule : String) : Bool :=
  let lowerRule := lowerStr rule
  jsIncludes lowerRule "use" || jsIncludes lowerRule "apply"
    || jsIncludes lowerRule "ensure"

/-- One iteration of the `validate_pattern` classification loop (route.ts
lines 214-236): on a negative-marker rule push the tagged rule to the
violations (first component) when the trimmed fragment after the first
marker is nonempty (JS truthiness) and the lower-cased pattern contains it
lower-cased; otherwise, on a positive-marker rule, push to the
recommendations (second component). -/
def classifyStep (pattern cat : String) (acc : List String × List String)
    (rule : String) : List String × List String :=
  let lowerPattern := lowerStr pattern
  if negSub rule then
    match codeFragTrim rule with
    | some issue =>
      if !issue.isEmpty && jsIncludes lowerPattern (lowerStr issue) then
        (acc.1 ++ [renderTag cat rule], acc.2)
      else acc
    | none => acc
  else if posSub rule then (acc.1, acc.2 ++ [renderTag cat rule])
  else acc

/-- The full classification pass of `validate_pattern` over a scope:
`(violations, recommendations)` in push order. -/
def classifyAll (pattern : String) (scope : List (String × List String)) :
    List String × List String :=
  scope.foldl (fun acc e => e.2.foldl (classifyStep pattern e.1) acc) ([], [])

/-- The scope selection `category ? { [category]: guidelines[category] } :
guidelines` of `route.ts` lines 208-210.  The `z.enum` at the tool boundary
guarantees a present category is one of `categoryNames`; for such values the
`getD []` default is never taken. -/
def scopeOf (category : Option String) : List (String × List String) :=
  match category with
  | some c => [(c, (guidelines.lookup c).getD [])]
  | none => guidelines

/-- The `validate_pattern` tool handler (route.ts lines 207-258): the text
block of the response, built by successive `result +=` appends. -/
def validatePattern (pattern : String) (category : Option String) : String :=
  let vr := classifyAll pattern (scopeOf category)
  let violations := vr.1
  let recommendations := vr.2
  let result := "## Pattern Validation for: \"" ++ pattern ++ "\"\n\n"
  let result :=
    if violations.length > 0 then
      result ++ "### ⚠️ Potential Issues:\n"
        ++ String.intercalate "\n" violations ++ "\n\n"
    else result
  let result :=
    if recommendations.length > 0 then
      result ++ "### ✅ Relevant Recommendations:\n"
        ++ String.intercalate "\n" (recommendations.take 5) ++ "\n\n"
    else result
  if violations.length = 0 ∧ recommendations.length = 0 then
    result ++ "No specific violations or recommendations found for this pattern."
  else result

/-- The hardcoded scenario tip table of `get_quick_tips` (route.ts lines
315-359), a mapping independent of the main guideline corpus. -/
def quickTips : List (String × List String) := [
  ("forms", [
    "Inputs should be wrapped with a <form> to submit by pressing Enter",
    "Use appropriate input types like password, email, etc",
    "Font size for inputs should not be smaller than 16px to prevent iOS zooming on focus",
    "Clicking the input label should focus the input field",
    "Inputs should disable spellcheck and autocomplete attributes most of the time",
    "Use HTML form validation with the required attribute when appropriate"]),
  ("buttons", [
    "Buttons should be disabled after submission to avoid duplicate network requests",
    "Disabled buttons should not have tooltips, they are not accessible",
    "Icon only interactive elements should define an explicit aria-label",
    "Hover states should not be visible on touch press, use @media (hover: hover)",
    "Don't scale buttons on press from 1 → 0.8, but ~0.96, ~0.9, or so"]),
  ("animations", [
    "Animation duration should not be more than 200ms for interactions to feel immediate",
    "Looping animations should pause when not visible on the screen to offload CPU and GPU usage",
    "Animation values should be proportional to the trigger size",
    "Switching themes should not trigger transitions and animations on elements",
    "Actions that are frequent and low in novelty should avoid extraneous animations"]),
  ("mobile", [
    "Hover states should not be visible on touch press, use @media (hover: hover)",
    "Font size for inputs should not be smaller than 16px to prevent iOS zooming on focus",
    "Inputs should not auto focus on touch devices as it will open the keyboard and cover the screen",
    "Apply muted and playsinline to <video /> tags to auto play on iOS",
    "Disable the default iOS tap highlight with -webkit-tap-highlight-color: rgba(0,0,0,0), but always replace it with an appropriate alternative"]),
  ("accessibility", [
    "Disabled buttons should not have tooltips, they are not accessible",
    "Box shadow should be used for focus rings, not outline which won't respect radius",
    "Icon only interactive elements should define an explicit aria-label",
    "Images should always be rendered with <img> for screen readers and ease of copying from the right click menu",
    "Illustrations built with HTML should have an explicit aria-label instead of announcing the raw DOM tree"]),
  ("optimizations", [
    "Large blur() values for filter and backdrop-filter may be slow",
    "Scaling and blurring filled rectangles will cause banding, use radial gradients instead",
    "Sparingly enable GPU rendering with transform: translateZ(0) for unperformant animations",
    "Auto-playing too many videos on iOS will choke the device, pause or even unmount off-screen videos",
    "Detect and adapt to the hardware and network capabilities of the user's device"])]

/-- The closed set of valid scenario names (the `z.enum` of `route.ts`
lines 305-312). -/
def scenarioNames : List String :=
  ["forms", "buttons", "animations", "mobile", "accessibility", "optimizations"]

/-- The `get_quick_tips` tool handler (route.ts lines 314-369), after the
`z.enum` validation guaranteeing `scenario ∈ scenarioNames` (for such values
the `getD []` default is never taken). -/
def getQuickTips (scenario : String) : String :=
  let scenarioTips := (quickTips.lookup scenario).getD []
  "## " ++ capitalize scenario ++ " Quick Tips\n\n"
    ++ String.intercalate "\n" (scenarioTips.map bullet)

/-- Word character for the word-boundary semantics the spec prescribes
(`\b` of a JS regex): ASCII letter, digit or underscore. -/
def isWordChar (c : Char) : Bool := c.isAlphanum || c == '_'

/-- A word boundary follows: the next character (if any) is not a word
character. -/
def boundaryAfter : List Char → Bool
  | [] => true
  | c :: _ => !isWordChar c

/-- Try the word-boundary-anchored markers in alternation order at the
current position: `prevOk` records that the previous character (if any) was
not a word character, so a match here starts at a word boundary; the match
must also end at a word boundary. -/
def tryWordMarkers (ms : List (List Char)) (prevOk : Bool) (l : List Char) :
    Option (List Char) :=
  match ms with
  | [] => none
  | m :: rest =>
    if prevOk && ciPref m l && boundaryAfter (l.drop m.length) then
      some (l.drop m.length)
    else tryWordMarkers rest prevOk l

/-- Modelled from the spec: scan for the first (leftmost) whole-word,
case-insensitive occurrence of one of the markers, returning the rest of
the input after the match. -/
def wordScan (ms : List (List Char)) : Bool → List Char → Option (List Char)
  | _, [] => none
  | prevOk, c :: cs =>
    match tryWordMarkers ms prevOk (c :: cs) with
    | some rest => some rest
    | none => wordScan ms (!isWordChar c) cs

/-- Modelled from the spec: the negative markers as whole words, including
the `do not` variant the spec lists alongside `don't`. -/
def specNegMarkers : List (List Char) :=
  [String.data "avoid", String.data "don't", String.data "do not", String.data "prevent"]

/-- Modelled from the spec: the positive markers as whole words
(`use`, `apply`, `ensure`, `leverage`, `should`). -/
def specPosMarkers : List (List Char) :=
  [String.data "use", String.data "apply", String.data "ensure",
   String.data "leverage", String.data "should"]

/-- Modelled from the spec: the statement matches the negative-marker regex
for the whole words `avoid`, `don't`/`do not`, or `prevent`
(case-insensitive, word-boundary matched). -/
def specNegMatch (rule : String) : Bool :=
  (wordScan specNegMarkers true rule.data).isSome

/-- Modelled from the spec: the text following the first negative-marker
occurrence, trimmed. -/
def specFragTrim (rule : String) : Option String :=
  (wordScan specNegMarkers true rule.data).map (fun rest => jsTrim (String.mk rest))

/-- Modelled from the spec: the statement matches the positive-marker regex
for the whole words `use`, `apply`, `ensure`, `leverage` or `should`. -/
def specPosMatch (rule : String) : Bool :=
  (wordScan specPosMarkers true rule.data).isSome

/-- Modelled from the spec (§4.4 step 2): a statement is an issue for
`pattern` when the negative-marker regex matches and the text after the
first marker, trimmed and lower-cased, has at least 3 characters and occurs
as a substring of the lower-cased pattern. -/
def specIssueCond (pattern rule : String) : Bool :=
  specNegMatch rule &&
    match specFragTrim rule with
    | some frag =>
        3 ≤ (lowerStr frag).length
          && jsIncludes (lowerStr pattern) (lowerStr frag)
    | none => false

/-- The issue condition actually implemented by `route.ts` lines 219-227,
factored out of `classifyStep`. -/
def codeIssueCond (pattern rule : String) : Bool :=
  negSub rule &&
    match codeFragTrim rule with
    | some issue =>
        !issue.isEmpty && jsIncludes (lowerStr pattern) (lowerStr issue)
    | none => false

/-- The recommendation condition actually implemented by `route.ts` lines
228-235: no negative substring marker, and a positive substring marker. -/
def codeRecCond (rule : String) : Bool := !negSub rule && posSub rule

/-! ### The accumulation loops as filters -/

/-- A conditional-push `foldl` is the filtered map appended to the
accumulator. -/
lemma foldl_push_filter {α : Type} (p : α → Bool) (f : α → String) :
    ∀ (l : List α) (acc : List String),
      l.foldl (fun acc x => if p x then acc ++ [f x] else acc) acc
        = acc ++ (l.filter p).map f := by
  intro l
  induction l with
  | nil => intro acc; simp
  | cons x xs ih =>
    intro acc
    rw [List.foldl_cons, ih]
    cases hx : p x <;> simp [List.filter_cons, hx]

/-- One classification step appends the issue contribution to the first
bucket and the recommendation contribution to the second. -/
lemma classifyStep_eq (pattern cat : String) (acc : List String × List String)
    (rule : String) :
    classifyStep pattern cat acc rule =
      (acc.1 ++ (if codeIssueCond pattern rule then [renderTag cat rule] else []),
       acc.2 ++ (if codeRecCond rule then [renderTag cat rule] else [])) := by
  unfold classifyStep codeIssueCond codeRecCond
  cases hn : negSub rule
  · cases hp : posSub rule <;> simp [hn, hp]
  · cases hf : codeFragTrim rule with
    | none => simp [hn, hf]
    | some issue =>
      cases hc : (!issue.isEmpty && jsIncludes (lowerStr pattern) (lowerStr issue)) <;>
        simp [hn, hf, hc]

/-- The inner `rules.forEach` loop of `validate_pattern` as a filter. -/
lemma foldl_classifyStep (pattern cat : String) :
    ∀ (rules : List String) (acc : List String × List String),
      rules.foldl (classifyStep pattern cat) acc =
        (acc.1 ++ (rules.filter (codeIssueCond pattern)).map (renderTag cat),
         acc.2 ++ (rules.filter codeRecCond).map (renderTag cat)) := by
  intro rules
  induction rules with
  | nil => intro acc; simp
  | cons r rs ih =>
    intro acc
    rw [List.foldl_cons, ih, classifyStep_eq]
    cases hic : codeIssueCond pattern r <;> cases hrc : codeRecCond r <;>
      simp [List.filter_cons, hic, hrc]

/-- The full `validate_pattern` classification pass: the violations are the
scope statements passing the implemented issue condition, the
recommendations those passing the implemented recommendation condition,
both tagged and in scope order. -/
lemma classifyAll_eq (pattern : String) (scope : List (String × List String)) :
    classifyAll pattern scope =
      (((pairsOf scope).filter (fun pr => codeIssueCond pattern pr.2)).map
          (fun pr => renderTag pr.1 pr.2),
       ((pairsOf scope).filter (fun pr => codeRecCond pr.2)).map
          (fun pr => renderTag pr.1 pr.2)) := by
  unfold classifyAll
  suffices h : ∀ acc,
      scope.foldl (fun acc e => e.2.foldl (classifyStep pattern e.1) acc) acc =
        (acc.1 ++ ((pairsOf scope).filter (fun pr => codeIssueCond pattern pr.2)).map
            (fun pr => renderTag pr.1 pr.2),
         acc.2 ++ ((pairsOf scope).filter (fun pr => codeRecCond pr.2)).map
            (fun pr => renderTag pr.1 pr.2)) by
    simpa using h ([], [])
  induction scope with
  | nil => intro acc; simp [pairsOf]
  | cons e es ih =>
    intro acc
    rw [List.foldl_cons, foldl_classifyStep, ih]
    simp [pairsOf, List.filter_append, List.filter_map, List.map_map,
      Function.comp_def, List.append_assoc]

/-- For one statement: the implemented substring marker test agrees with the
spec's whole-word test, the implemented split fragment agrees with the
spec's after-first-marker fragment, and a nonempty trimmed fragment always
has at least 3 characters.  These hold of every corpus statement (checked
below), which is what collapses the spec's word-boundary / length-3
refinements onto the implemented substring / nonemptiness tests. -/
def markerAgrees (rule : String) : Bool :=
  (negSub rule == specNegMatch rule) && (codeFragTrim rule == specFragTrim rule)
    && (match specFragTrim rule with
        | some t => (!t.isEmpty) == (3 ≤ t.length)
        | none => true)

/-- Every corpus statement satisfies `markerAgrees`. -/
lemma corpus_markerAgrees : corpusPairs.all (fun pr => markerAgrees pr.2) = true := by
  decide

/-- The tagged renderings of the corpus pairs are pairwise distinct. -/
lemma rendered_nodup : (corpusPairs.map (fun pr => renderTag pr.1 pr.2)).Nodup := by
  decide

/-- On a statement satisfying `markerAgrees` (so on every corpus
statement), the implemented issue condition coincides with the spec's
condition, for every pattern. -/
lemma codeIssueCond_eq_spec (pattern : String) {rule : String}
    (h : markerAgrees rule = true) :
    codeIssueCond pattern rule = specIssueCond pattern rule := by
  unfold markerAgrees at h
  simp only [Bool.and_eq_true, beq_iff_eq] at h
  obtain ⟨⟨h1, h2⟩, h3⟩ := h
  unfold codeIssueCond specIssueCond
  rw [h1, h2]
  cases hf : specFragTrim rule with
  | none => rfl
  | some t =>
    rw [hf] at h3
    have h4 : (!t.isEmpty) = decide (3 ≤ t.length) := by simpa using h3
    have hlen : (lowerStr t).length = t.length := by
      obtain ⟨l⟩ := t
      simp [lowerStr]
    simp only [hlen, ← h4]

/-- A successful `lookup` pairs the key with a value present in the list. -/
lemma lookup_mem {l : List (String × List String)} {c : String} {v : List String}
    (h : l.lookup c = some v) : (c, v) ∈ l := by
  induction l with
  | nil => simp [List.lookup] at h
  | cons e es ih =>
    obtain ⟨k, w⟩ := e
    rw [List.lookup] at h
    cases hbeq : c == k with
    | true =>
      rw [hbeq] at h
      simp only [Option.some.injEq] at h
      subst h
      exact (eq_of_beq hbeq) ▸ List.mem_cons_self _ _
    | false =>
      rw [hbeq] at h
      exact List.mem_cons_of_mem _ (ih h)

/-- Under the `z.enum` validity guarantee, every pair of the selected scope
is a corpus pair. -/
lemma scope_pairs_mem {category : Option String}
    (h : ∀ c, category = some c → c ∈ categoryNames) :
    ∀ pr ∈ pairsOf (scopeOf category), pr ∈ corpusPairs := by
  cases category with
  | none => exact fun pr hpr => hpr
  | some c =>
    intro pr hpr
    have hc : c ∈ categoryNames := h c rfl
    have hlk : (guidelines.lookup c).isSome := by
      fin_cases hc <;> decide
    obtain ⟨v, hv⟩ := Option.isSome_iff_exists.mp hlk
    have hmem : (c, v) ∈ guidelines := lookup_mem hv
    simp only [pairsOf, scopeOf, hv, Option.getD_some, List.flatMap_cons,
      List.flatMap_nil, List.append_nil] at hpr
    exact List.mem_flatMap.mpr ⟨(c, v), hmem, hpr⟩

/-- The `search_guidelines` loop as a filter over the flattened corpus. -/
lemma searchResults_eq (query : String) :
    searchResults query =
      (corpusPairs.filter (fun pr => jsIncludes (lowerStr pr.2) (lowerStr query))).map
        (fun pr => renderTag pr.1 pr.2) := by
  unfold searchResults
  suffices h : ∀ acc,
      guidelines.foldl
        (fun results e =>
          e.2.foldl
            (fun results rule =>
              if jsIncludes (lowerStr rule) (lowerStr query) then
                results ++ [renderTag e.1 rule]
              else results)
            results)
        acc =
        acc ++ (corpusPairs.filter
            (fun pr => jsIncludes (lowerStr pr.2) (lowerStr query))).map
          (fun pr => renderTag pr.1 pr.2) by
    simpa using h []
  show ∀ acc, _
  unfold corpusPairs
  induction guidelines with
  | nil => intro acc; simp
  | cons e es ih =>
    intro acc
    rw [List.foldl_cons, foldl_push_filter, ih]
    simp [List.filter_append, List.filter_map, List.map_map,
      Function.comp_def, List.append_assoc]

/-! ### Claim theorems: `validate_pattern` -/

/-- C1: for every statement in scope, the statement is classified as an
issue iff it matches the negative-marker regex for the whole words `avoid`,
`don't`/`do not` or `prevent` (case-insensitive, word-boundary matched) and
the text following the first marker occurrence, trimmed and lower-cased, is
at least 3 characters long and occurs as a substring of the lower-cased
pattern; a statement carrying a negative marker whose fragment fails the
test is dropped and never becomes a recommendation.  The first conjunct
states the issues list is exactly the in-order filter of the scope by the
spec's issue condition; the second that no negative-marker statement
appears among the recommendations. -/
theorem validate_pattern_issue_spec (pattern : String) (category : Option String)
    (h : ∀ c, category = some c → c ∈ categoryNames) :
    (classifyAll pattern (scopeOf category)).1 =
      ((pairsOf (scopeOf category)).filter (fun pr => specIssueCond pattern pr.2)).map
        (fun pr => renderTag pr.1 pr.2) ∧
    ∀ pr ∈ pairsOf (scopeOf category), specNegMatch pr.2 = true →
      renderTag pr.1 pr.2 ∉ (classifyAll pattern (scopeOf category)).2 := by
  have hagree : ∀ pr ∈ pairsOf (scopeOf category), markerAgrees pr.2 = true :=
    fun pr hpr =>
      List.all_eq_true.mp corpus_markerAgrees pr (scope_pairs_mem h pr hpr)
  have hv : (classifyAll pattern (scopeOf category)).1 =
      ((pairsOf (scopeOf category)).filter (fun pr => codeIssueCond pattern pr.2)).map
        (fun pr => renderTag pr.1 pr.2) := by rw [classifyAll_eq]
  have hr : (classifyAll pattern (scopeOf category)).2 =
      ((pairsOf (scopeOf category)).filter (fun pr => codeRecCond pr.2)).map
        (fun pr => renderTag pr.1 pr.2) := by rw [classifyAll_eq]
  constructor
  · rw [hv]
    apply congrArg
    apply List.filter_congr
    intro pr hpr
    exact codeIssueCond_eq_spec pattern (hagree pr hpr)
  · intro pr hpr hneg hmem
    rw [hr] at hmem
    obtain ⟨pr', hpr', heq⟩ := List.mem_map.mp hmem
    obtain ⟨hpr'mem, hcond⟩ := List.mem_filter.mp hpr'
    have hsame : pr' = pr :=
      List.inj_on_of_nodup_map rendered_nodup
        (scope_pairs_mem h pr' hpr'mem) (scope_pairs_mem h pr hpr) heq
    subst hsame
    have h1 : negSub pr'.2 = specNegMatch pr'.2 := by
      have := hagree pr' hpr
      unfold markerAgrees at this
      simp only [Bool.and_eq_true, beq_iff_eq] at this
      exact this.1.1
    rw [codeRecCond, h1, hneg] at hcond
    simp at hcond

/-- Witness for C1 at the spec's validation example: the pattern
`"I added a tooltip to my disabled button"` with no category restriction. -/
theorem validate_pattern_issue_spec_witness :
    (∀ c, (none : Option String) = some c → c ∈ categoryNames) ∧
    ((classifyAll "I added a tooltip to my disabled button" (scopeOf none)).1 =
      ((pairsOf (scopeOf none)).filter
          (fun pr => specIssueCond "I added a tooltip to my disabled button" pr.2)).map
        (fun pr => renderTag pr.1 pr.2) ∧
    ∀ pr ∈ pairsOf (scopeOf none), specNegMatch pr.2 = true →
      renderTag pr.1 pr.2 ∉
        (classifyAll "I added a tooltip to my disabled button" (scopeOf none)).2) :=
  ⟨fun _c hc => Option.noConfusion hc,
   validate_pattern_issue_spec "I added a tooltip to my disabled button" none
     (fun _c hc => Option.noConfusion hc)⟩

/-- C2 counterexample: the interactivity statement `"Toggles should
immediately take effect, not require confirmation"` matches the spec's
positive-marker regex (whole word `should`) and no negative marker, and no
category restriction is given, so the claim classifies it as a kept
recommendation; the code never pushes it (its lower-cased text contains
none of `use`, `apply`, `ensure` as a substring), so it is absent from the
recommendations for an arbitrary pattern. -/
theorem validate_pattern_positive_marker_cex :
    specPosMatch "Toggles should immediately take effect, not require confirmation" = true ∧
    specNegMatch "Toggles should immediately take effect, not require confirmation" = false ∧
    ("interactivity", "Toggles should immediately take effect, not require confirmation")
      ∈ pairsOf (scopeOf none) ∧
    renderTag "interactivity" "Toggles should immediately take effect, not require confirmation"
      ∉ (classifyAll "my pattern" (scopeOf none)).2 := by
  refine ⟨by decide, by decide, by decide, ?_⟩
  rw [show (classifyAll "my pattern" (scopeOf none)).2 =
      ((pairsOf (scopeOf none)).filter (fun pr => codeRecCond pr.2)).map
        (fun pr => renderTag pr.1 pr.2) from by rw [classifyAll_eq]]
  decide

/-- C2 as amended: a statement matching no negative substring marker is
pushed as a recommendation iff its lower-cased text contains `use`, `apply`
or `ensure` as a substring; every such candidate is kept unconditionally —
there is no `leverage`/`should` marker, no word-boundary matching, and no
token-overlap filtering against the pattern or the category restriction. -/
theorem validate_pattern_recommendation_push (pattern : String)
    (category : Option String) :
    (classifyAll pattern (scopeOf category)).2 =
      ((pairsOf (scopeOf category)).filter
          (fun pr => !negSub pr.2 && posSub pr.2)).map
        (fun pr => renderTag pr.1 pr.2) :=
  congrArg Prod.snd (classifyAll_eq pattern (scopeOf category))

/-- C10: for a fixed category argument the recommendations list — before
and after the 5-item cap — is identical for any two patterns: the pattern
influences only the issues list and the header. -/
theorem validate_pattern_recs_pattern_independent (p₁ p₂ : String)
    (category : Option String) :
    (classifyAll p₁ (scopeOf category)).2 = (classifyAll p₂ (scopeOf category)).2 ∧
    ((classifyAll p₁ (scopeOf category)).2.take 5 =
      (classifyAll p₂ (scopeOf category)).2.take 5) := by
  have h : (classifyAll p₁ (scopeOf category)).2 = (classifyAll p₂ (scopeOf category)).2 := by
    rw [classifyAll_eq, classifyAll_eq]
  exact ⟨h, by rw [h]⟩

/-- C5: the `validate_pattern` report is the header, then (when nonempty)
the issues section listing every violation with no cap, then (when
nonempty) the recommendations section listing at most the first 5
recommendations, then the fixed no-violations message exactly when both
lists are empty; and the rendered recommendations list never exceeds 5. -/
theorem validate_pattern_report_structure (pattern : String)
    (category : Option String) :
    validatePattern pattern category =
      "## Pattern Validation for: \"" ++ pattern ++ "\"\n\n"
        ++ (if (classifyAll pattern (scopeOf category)).1.length > 0 then
              "### ⚠️ Potential Issues:\n"
                ++ String.intercalate "\n" (classifyAll pattern (scopeOf category)).1
                ++ "\n\n"
            else "")
        ++ (if (classifyAll pattern (scopeOf category)).2.length > 0 then
              "### ✅ Relevant Recommendations:\n"
                ++ String.intercalate "\n"
                    ((classifyAll pattern (scopeOf category)).2.take 5)
                ++ "\n\n"
            else "")
        ++ (if (classifyAll pattern (scopeOf category)).1.length = 0
              ∧ (classifyAll pattern (scopeOf category)).2.length = 0 then
              "No specific violations or recommendations found for this pattern."
            else "") ∧
    ((classifyAll pattern (scopeOf category)).2.take 5).length ≤ 5 := by
  constructor
  · simp only [validatePattern]
    split_ifs <;>
      ((try (exfalso; omega));
       (try simp only [String.append_assoc, String.append_empty]))
  · rw [List.length_take]
    exact Nat.min_le_left _ _

/-! ### Claim theorems: `search_guidelines` -/

/-- C3: for every non-empty query, the search emits exactly the corpus
statements whose lower-cased text contains the lower-cased query as a
contiguous substring (the in-order filter of the flattened corpus — sound
and complete), in corpus order (a sublist of the rendered corpus), each
rendered as a category-tagged line; the response is the fixed no-matches
message on zero matches and the count header plus blank-line-separated
matches otherwise. -/
theorem search_guidelines_substring_spec (query : String) (_h : query ≠ "") :
    searchResults query =
      (corpusPairs.filter (fun pr => jsIncludes (lowerStr pr.2) (lowerStr query))).map
        (fun pr => renderTag pr.1 pr.2) ∧
    List.Sublist (searchResults query) (corpusPairs.map (fun pr => renderTag pr.1 pr.2)) ∧
    searchGuidelines query =
      (if (searchResults query).length = 0 then
        "No guidelines found matching \"" ++ query ++ "\""
      else
        "Found " ++ toString (searchResults query).length ++ " guidelines matching \""
          ++ query ++ "\":\n\n" ++ String.intercalate "\n\n" (searchResults query)) := by
  refine ⟨searchResults_eq query, ?_, rfl⟩
  rw [searchResults_eq]
  exact List.Sublist.map _ (List.filter_sublist _)

/-- Witness for C3 at the spec's search example, the query `"aria-label"`. -/
theorem search_guidelines_substring_spec_witness :
    ("aria-label" : String) ≠ "" ∧
    (searchResults "aria-label" =
      (corpusPairs.filter
          (fun pr => jsIncludes (lowerStr pr.2) (lowerStr "aria-label"))).map
        (fun pr => renderTag pr.1 pr.2) ∧
    List.Sublist (searchResults "aria-label") (corpusPairs.map (fun pr => renderTag pr.1 pr.2)) ∧
    searchGuidelines "aria-label" =
      (if (searchResults "aria-label").length = 0 then
        "No guidelines found matching \"aria-label\""
      else
        "Found " ++ toString (searchResults "aria-label").length
          ++ " guidelines matching \"aria-label\":\n\n"
          ++ String.intercalate "\n\n" (searchResults "aria-label"))) :=
  ⟨by decide, search_guidelines_substring_spec "aria-label" (by decide)⟩

/-- Every string contains the empty string as a substring, as JS
`includes` does. -/
lemma jsIncludes_empty (hay : String) : jsIncludes hay "" = true := by
  show charsContain hay.data [] = true
  cases hay.data with
  | nil => rfl
  | cons c tl => rfl

/-- The empty query matches every corpus statement: the search results are
the whole rendered corpus. -/
lemma searchResults_empty :
    searchResults "" = corpusPairs.map (fun pr => renderTag pr.1 pr.2) := by
  rw [searchResults_eq]
  have h : corpusPairs.filter (fun pr => jsIncludes (lowerStr pr.2) (lowerStr "")) =
      corpusPairs :=
    List.filter_eq_self.mpr (fun pr _ => jsIncludes_empty _)
  rw [h]

/-- C4 counterexample: the empty query is not rejected; it flows through
the generic search path, matches every one of the 58 corpus statements
(every string contains the empty substring), and the response is the
generic count-header output listing the whole corpus — not a validation
message. -/
theorem search_guidelines_empty_query_cex :
    searchResults "" = corpusPairs.map (fun pr => renderTag pr.1 pr.2) ∧
    (searchResults "").length = 58 ∧
    searchGuidelines "" =
      "Found 58 guidelines matching \"\":\n\n"
        ++ String.intercalate "\n\n" (corpusPairs.map (fun pr => renderTag pr.1 pr.2)) := by
  have h2 : (searchResults "").length = 58 := by
    rw [searchResults_empty, List.length_map]
    decide
  refine ⟨searchResults_empty, h2, ?_⟩
  simp only [searchGuidelines]
  rw [h2, searchResults_empty, if_neg (by decide : ¬(58 = 0))]
  congr 1

/-- C4 as amended: `search_guidelines` performs no query validation — the
empty query and whitespace-only queries all flow through the generic
substring search path and get its generic outcome, never a validation
message.  The empty query matches every corpus statement and returns the
count-header output over all 58 guidelines; a whitespace-only query gets
the generic result of searching its text — a single space matches all 58
statements (every statement contains a space), while a tab matches none
and yields the generic no-matches message. -/
theorem search_guidelines_no_empty_validation :
    (∀ pr ∈ corpusPairs, renderTag pr.1 pr.2 ∈ searchResults "") ∧
    searchGuidelines "" =
      "Found " ++ toString (searchResults "").length ++ " guidelines matching \""
        ++ "" ++ "\":\n\n" ++ String.intercalate "\n\n" (searchResults "") ∧
    (searchResults " ").length = 58 ∧
    searchGuidelines " " =
      "Found " ++ toString (searchResults " ").length ++ " guidelines matching \""
        ++ " " ++ "\":\n\n" ++ String.intercalate "\n\n" (searchResults " ") ∧
    searchResults "\t" = [] ∧
    searchGuidelines "\t" = "No guidelines found matching \"\t\"" := by
  have hsp : (searchResults " ").length = 58 := by
    rw [searchResults_eq, List.length_map]
    decide
  have htab : searchResults "\t" = [] := by decide
  refine ⟨?_, ?_, hsp, ?_, htab, ?_⟩
  · intro pr hpr
    rw [searchResults_empty]
    exact List.mem_map_of_mem _ hpr
  · have hne : ¬((searchResults "").length = 0) := by
      rw [searchResults_empty, List.length_map]
      decide
    simp only [searchGuidelines]
    rw [if_neg hne]
  · have hne : ¬((searchResults " ").length = 0) := by
      rw [hsp]
      decide
    simp only [searchGuidelines]
    rw [if_neg hne]
  · simp only [searchGuidelines]
    rw [htab]
    decide

/-! ### Claim theorems: `get_guidelines` and `get_quick_tips` -/

/-- Length of the `String.intercalate` worker: the accumulator plus every
remaining piece plus one separator per remaining piece. -/
lemma intercalate_go_length (sep : String) :
    ∀ (l : List String) (acc : String),
      (String.intercalate.go acc sep l).length =
        acc.length + ((l.map String.length).sum + sep.length * l.length) := by
  intro l
  induction l with
  | nil => intro acc; simp [String.intercalate.go]
  | cons a as ih =>
    intro acc
    rw [String.intercalate.go, ih]
    simp [String.length_append]
    ring

/-- Length of a nonempty intercalation: the sum of the piece lengths plus
one separator per gap. -/
lemma intercalate_length (sep : String) (l : List String) (h : l ≠ []) :
    (String.intercalate sep l).length =
      (l.map String.length).sum + sep.length * (l.length - 1) := by
  cases l with
  | nil => exact absurd rfl h
  | cons a as =>
    rw [String.intercalate, intercalate_go_length]
    simp
    ring

/-- C6: for every corpus category, the `get_guidelines` output is the
title-cased heading followed by one bullet line per statement of that
category in corpus order; the category's statement list has no duplicates
(so each statement appears exactly once), and no statement of any other
category occurs in it (the categories' statement lists are pairwise
disjoint). -/
theorem get_guidelines_category_spec :
    ∀ c ∈ categoryNames,
      getGuidelines c =
        "## " ++ capitalize c ++ " Guidelines\n"
          ++ String.intercalate "\n" (((guidelines.lookup c).getD []).map bullet) ∧
      ((guidelines.lookup c).getD []).Nodup ∧
      ∀ c' ∈ categoryNames, c' ≠ c →
        ∀ s ∈ (guidelines.lookup c').getD [], s ∉ (guidelines.lookup c).getD [] := by
  decide

/-- Witness for C6 at the spec's example category `"motion"`. -/
theorem get_guidelines_category_spec_witness :
    "motion" ∈ categoryNames ∧
    (getGuidelines "motion" =
        "## " ++ capitalize "motion" ++ " Guidelines\n"
          ++ String.intercalate "\n" (((guidelines.lookup "motion").getD []).map bullet) ∧
      ((guidelines.lookup "motion").getD []).Nodup ∧
      ∀ c' ∈ categoryNames, c' ≠ "motion" →
        ∀ s ∈ (guidelines.lookup c').getD [], s ∉ (guidelines.lookup "motion").getD []) :=
  ⟨by decide, get_guidelines_category_spec "motion" (by decide)⟩

/-- C7: the `get_guidelines "all"` output is the blank-line-separated
concatenation of the per-category `formatCategory` blocks in corpus
iteration order, each block present exactly once (the blocks are pairwise
distinct), and its length is the sum of the block lengths plus the
two-character separators. -/
theorem get_guidelines_all_concat :
    getGuidelines "all" =
      String.intercalate "\n\n" (guidelines.map (fun e => formatCategory e.1 e.2)) ∧
    (guidelines.map (fun e => formatCategory e.1 e.2)).Nodup ∧
    (getGuidelines "all").length =
      (guidelines.map (fun e => (formatCategory e.1 e.2).length)).sum
        + 2 * (guidelines.length - 1) := by
  refine ⟨rfl, by decide, ?_⟩
  have h : getGuidelines "all" =
      String.intercalate "\n\n" (guidelines.map (fun e => formatCategory e.1 e.2)) := rfl
  rw [h, intercalate_length _ _ (by decide), List.map_map, List.length_map]
  rfl

/-- C8: any category argument that is neither `all` nor a corpus key gets
the not-found message enumerating the valid categories — a normal textual
response, not a failure. -/
theorem get_guidelines_unknown_category (c : String)
    (h1 : c ≠ "all") (h2 : c ∉ categoryNames) :
    getGuidelines c =
      "Category \"" ++ c
        ++ "\" not found. Available categories: interactivity, typography, motion, touch, accessibility, optimizations, design" := by
  have hlk : guidelines.lookup c = none := by
    cases hl : guidelines.lookup c with
    | none => rfl
    | some v =>
      exfalso
      have hm : (c, v) ∈ guidelines := lookup_mem hl
      have hc : c ∈ guidelines.map (fun e => e.1) := List.mem_map.mpr ⟨(c, v), hm, rfl⟩
      have hkeys : guidelines.map (fun e => e.1) = categoryNames := by decide
      rw [hkeys] at hc
      exact h2 hc
  unfold getGuidelines
  rw [if_neg h1, hlk]
  show "Category \"" ++ c ++ "\" not found. Available categories: "
      ++ String.intercalate ", " (guidelines.map (fun e => e.1)) = _
  rw [String.append_assoc]
  congr 1

/-- Witness for C8 at the spec's example argument `"bogus"`. -/
theorem get_guidelines_unknown_category_witness :
    ("bogus" : String) ≠ "all" ∧ "bogus" ∉ categoryNames ∧
    getGuidelines "bogus" =
      "Category \"bogus\" not found. Available categories: interactivity, typography, motion, touch, accessibility, optimizations, design" := by
  refine ⟨by decide, by decide, ?_⟩
  rw [get_guidelines_unknown_category "bogus" (by decide) (by decide)]
  decide

/-- C9: for every scenario of the closed enumeration, `get_quick_tips`
renders the fixed tip table's list for that scenario as a title-cased
heading plus one bullet per tip in table order; in particular the `forms`
scenario's tips are exactly the fixed six-item list (independent of the
main guideline corpus: the handler reads only the tip table). -/
theorem get_quick_tips_spec :
    (∀ s ∈ scenarioNames,
      getQuickTips s =
        "## " ++ capitalize s ++ " Quick Tips\n\n"
          ++ String.intercalate "\n" (((quickTips.lookup s).getD []).map bullet)) ∧
    (quickTips.lookup "forms").getD [] =
      ["Inputs should be wrapped with a <form> to submit by pressing Enter",
       "Use appropriate input types like password, email, etc",
       "Font size for inputs should not be smaller than 16px to prevent iOS zooming on focus",
       "Clicking the input label should focus the input field",
       "Inputs should disable spellcheck and autocomplete attributes most of the time",
       "Use HTML form validation with the required attribute when appropriate"] :=
  ⟨by decide, by decide⟩

end GWI
